import Mathlib

/-!
Shallow embedding of the game-chooser server (src/unnamed/part_000,
src/server/database.js, src/server/redis.js).

Conventions of the embedding:
- JS objects used as counters (gameState.userGameCounts, Redis counters)
  are association lists with lookup defaulting to 0, mirroring the JS
  idiom obj[k] or 0.
- Wheel angles are exact rationals measured in units of pi: an angle
  a * pi is stored as the rational a. The JS code computes the same
  formulas in floating point; the algebra is identical.
- The random draws made by the code (winning index, duration, number of
  extra rotations, Date.now) are passed in as explicit parameters.
- The rate-limit key built by the code as the string
  rate_limit : remoteAddress : Date.now() is modelled structurally as
  the pair (address, timestamp); the string format is injective in the
  timestamp, so nothing is lost.
-/

namespace GameChooser

/-- Association-list lookup with default 0, modelling the JS idiom
obj[k] or 0 used for userGameCounts and for Redis counters. -/
def alGet {K : Type} [DecidableEq K] : List (K × Nat) → K → Nat
  | [], _ => 0
  | p :: ps, k => if p.fst = k then p.snd else alGet ps k

/-- Association-list update, modelling JS object key assignment. -/
def alSet {K : Type} [DecidableEq K] : List (K × Nat) → K → Nat → List (K × Nat)
  | [], k, v => [(k, v)]
  | p :: ps, k, v => if p.fst = k then (k, v) :: ps else p :: alSet ps k v

/-- A game entry as stored in gameState.selectedGames. The server adds
the addedBy tag when the entry is appended; client-supplied input has
no such tag, hence the Option. -/
structure GameEntry where
  name : String
  genre : String
  platform : String
  addedBy : Option String
deriving DecidableEq

/-- The spinData record built by the start_spin handler. Angles are
rational coefficients of pi. -/
structure SpinData where
  startTime : Nat
  duration : ℚ
  finalRotation : ℚ
  baseRotation : ℚ
  preCalculatedWinner : Option GameEntry
deriving DecidableEq

/-- The per-session game state document. -/
structure GameState where
  selectedGames : List GameEntry
  isSpinning : Bool
  winner : Option GameEntry
  spinData : Option SpinData
  gameLimit : Option Int
  userGameCounts : List (String × Nat)
deriving DecidableEq

/-- The database default game state (empty shortlist, not spinning),
after the handler's userGameCounts normalisation. -/
def initialGameState : GameState :=
  { selectedGames := [], isSpinning := false, winner := none,
    spinData := none, gameLimit := none, userGameCounts := [] }

/-- The error message sent when the per-member game limit is hit,
as built by the add_game handler. -/
def limitReply (l : Int) : String :=
  "You can only submit " ++ toString l ++ " game" ++
    (if l = 1 then "" else "s") ++ "."

/-- The add_game action of the game_action handler. Returns the new
state and the error reply sent to the requester, if any. The duplicate
check comes first and, when it hits, nothing at all is sent. The limit
check fires only when gameState.gameLimit is truthy (a number other
than 0), mirroring the JS condition gameLimit and count >= gameLimit. -/
def addGame (s : GameState) (uid : String) (g : GameEntry) :
    GameState × Option String :=
  if s.selectedGames.any (fun e => e.name == g.name) then (s, none)
  else
    let c := alGet s.userGameCounts uid
    let added : GameState × Option String :=
      ({ s with
          selectedGames := s.selectedGames ++ [{ g with addedBy := some uid }],
          userGameCounts := alSet s.userGameCounts uid (c + 1) }, none)
    match s.gameLimit with
    | some l => if l ≠ 0 ∧ l ≤ (c : Int) then (s, some (limitReply l)) else added
    | none => added

/-- The clear_all_games action: empties the shortlist, clears winner,
spin flags and all per-member counts; gameLimit is kept. -/
def clearAllGames (s : GameState) : GameState :=
  { s with selectedGames := [], winner := none, isSpinning := false,
           spinData := none, userGameCounts := [] }

/-- The set_game_limit handler's state change (performed when the
requester is the session creator): the supplied limit is stored
verbatim, with no validation. -/
def setGameLimit (s : GameState) (l : Int) : GameState :=
  { s with gameLimit := some l }

/-- Insertion step for the by-name sort used by start_spin. -/
def insertByName (g : GameEntry) : List GameEntry → List GameEntry
  | [] => [g]
  | h :: t => if g.name ≤ h.name then g :: h :: t else h :: insertByName g t

/-- The start_spin handler sorts a copy of selectedGames by name
ascending (localeCompare); modelled by lexicographic string order. -/
def sortByName (l : List GameEntry) : List GameEntry :=
  l.foldr insertByName []

/-- anglePerSection = 2 pi / n, as a coefficient of pi. -/
def anglePerSectionCoeff (n : Nat) : ℚ := 2 / n

/-- baseRotation = -pi/2 - winningIndex * anglePerSection
- anglePerSection / 2, as a coefficient of pi. -/
def baseRotationCoeff (n idx : Nat) : ℚ :=
  -(1/2) - idx * anglePerSectionCoeff n - anglePerSectionCoeff n / 2

/-- The midpoint of the winning sector after rotation by baseRotation:
startAngle + anglePerSection / 2 with
startAngle = winningIndex * anglePerSection + baseRotation. -/
def sectorMidpointCoeff (n idx : Nat) : ℚ :=
  idx * anglePerSectionCoeff n + baseRotationCoeff n idx +
    anglePerSectionCoeff n / 2

/-- The start_spin action. Parameters now (Date.now), dur (the random
3000-5000 ms duration), idx (the random winning index, in [0, n) when
n > 0) and extra (the random integer count of extra full turns) stand
for the draws the code makes. If a spin is already running the action
returns the state unchanged (and the code sends no reply). There is no
guard for an empty shortlist: the n = 0 branch still installs spinData
with a null winner and zero rotations, exactly as the code's
locally-initialised defaults do. -/
def startSpin (s : GameState) (now : Nat) (dur : ℚ) (idx extra : Nat) :
    GameState :=
  if s.isSpinning then s
  else
    let games := sortByName s.selectedGames
    let n := games.length
    if 0 < n then
      { s with isSpinning := true, winner := none,
               spinData := some
                 { startTime := now, duration := dur,
                   finalRotation := baseRotationCoeff n idx + extra * 2,
                   baseRotation := baseRotationCoeff n idx,
                   preCalculatedWinner := games.get? idx } }
    else
      { s with isSpinning := true, winner := none,
               spinData := some
                 { startTime := now, duration := dur,
                   finalRotation := 0, baseRotation := 0,
                   preCalculatedWinner := none } }

/-- The body of the deferred completion scheduled by start_spin. The
closure captures nothing identifying the spin: it re-reads the current
state and finalises whenever isSpinning is true and spinData is
non-null, taking the winner from the current spinData. -/
def completeSpin (s : GameState) : GameState :=
  if s.isSpinning then
    match s.spinData with
    | some sd =>
      { s with isSpinning := false, winner := sd.preCalculatedWinner,
               spinData := none }
    | none => s
  else s

/-- A session row of the sessions table. -/
structure StoredSession where
  id : String
  game_state : GameState
  expires_at : Nat
deriving DecidableEq

/-- getSession of database.js: the row with the given id, provided it
has not expired. -/
def getSession (db : List StoredSession) (sid : String) (now : Nat) :
    Option StoredSession :=
  db.find? (fun s => s.id == sid && decide (now < s.expires_at))

/-- The state fetch of the game_action handler: the cached state when
present, else the stored game_state. No reconciliation of any kind is
applied to the fetched state. -/
def fetchState : Option GameState → GameState → GameState
  | some gs, _ => gs
  | none, stored => stored

/-- Whether the elapsed time since spinData.startTime has reached the
spin's duration. -/
def spinExpiredB (now : Nat) (s : GameState) : Bool :=
  match s.spinData with
  | some sd => decide (sd.duration ≤ Rat.ofInt ((now : Int) - (sd.startTime : Int)))
  | none => false

/-- generateSessionId: draws 6-digit candidates until one is absent
from the in-memory connections map. The list of draws stands for the
stream of random candidates; none models the loop never finding one. -/
def generateSessionId : List Nat → List String → Option String
  | [], _ => none
  | d :: ds, conns =>
    if toString d ∈ conns then generateSessionId ds conns
    else some (toString d)

/-- The reply sent by the create_session handler. -/
inductive CreateReply where
  | sessionCreated (id : String)
  | errorReply
deriving DecidableEq

/-- createSession of database.js: an INSERT whose primary key makes it
fail when the id already exists durably. -/
def dbCreateSession (db : List String) (id : String) :
    Option (List String) :=
  if id ∈ db then none else some (id :: db)

/-- The create_session handler: generate an id against the in-memory
connections map only, then attempt the durable insert; an insert
failure is caught and answered with a generic error reply, with no
retry. -/
def createSessionHandler (draws : List Nat) (conns db : List String) :
    CreateReply × List String :=
  match generateSessionId draws conns with
  | none => (CreateReply.errorReply, db)
  | some id =>
    match dbCreateSession db id with
    | none => (CreateReply.errorReply, db)
    | some db2 => (CreateReply.sessionCreated id, db2)

/-- A Redis counter store for rate limiting, keyed by the pair that the
code concatenates into its key string: (remote address, Date.now()). -/
abbrev RateStore := List ((String × Nat) × Nat)

/-- checkRateLimit of redis.js: INCR the counter at the key and accept
while the incremented value is at most the limit. (The EXPIRE set on a
fresh counter only makes windows lapse and is irrelevant here.) -/
def checkRateLimit (store : RateStore) (key : String × Nat) (limit : Nat) :
    Bool × RateStore :=
  let current := alGet store key + 1
  (decide (current ≤ limit), alSet store key current)

/-- The message-loop call site: each inbound message at millisecond
timestamp t is checked under the key (address, t), i.e. the key string
rate_limit : address : Date.now(). Returns the accept/reject verdicts
in order together with the final counter store. -/
def handleMessages (addr : String) (limit : Nat) :
    List Nat → RateStore → List Bool × RateStore
  | [], store => ([], store)
  | t :: ts, store =>
    let r := checkRateLimit store (addr, t) limit
    let rest := handleMessages addr limit ts r.2
    (r.1 :: rest.1, rest.2)

/- Concrete fixtures used by counterexamples and witnesses. -/

/-- A tagged entry added by member A. -/
def chessEntry : GameEntry :=
  { name := "Chess", genre := "Board", platform := "PC", addedBy := some "A" }

/-- A second tagged entry added by member A. -/
def goEntry : GameEntry :=
  { name := "Go", genre := "Board", platform := "PC", addedBy := some "A" }

/-- Client-supplied input entry named Go (no addedBy tag yet). -/
def goInput : GameEntry :=
  { name := "Go", genre := "Board", platform := "PC", addedBy := none }

/-- Client-supplied input entry named Chess (different genre and
platform from the stored one; only the name is compared). -/
def chessInput : GameEntry :=
  { name := "Chess", genre := "Card", platform := "Switch", addedBy := none }

/-- A spin record whose pre-selected winner is the Chess entry. -/
def sampleSpin : SpinData :=
  { startTime := 0, duration := 3000, finalRotation := 0,
    baseRotation := 0, preCalculatedWinner := some chessEntry }

/-- A session state captured mid-spin. -/
def spinningState : GameState :=
  { selectedGames := [chessEntry], isSpinning := true, winner := none,
    spinData := some sampleSpin, gameLimit := none,
    userGameCounts := [("A", 1)] }

/-- A state already containing Chess, added by A. -/
def dupState : GameState :=
  { selectedGames := [chessEntry], isSpinning := false, winner := none,
    spinData := none, gameLimit := none, userGameCounts := [("A", 1)] }

/-- A state where member A has two games and no limit is set. -/
def twoGamesState : GameState :=
  { selectedGames := [chessEntry, goEntry], isSpinning := false,
    winner := none, spinData := none, gameLimit := none,
    userGameCounts := [("A", 2)] }

/-- A state with gameLimit 1 where member A already has one game. -/
def limitState : GameState :=
  { selectedGames := [chessEntry], isSpinning := false, winner := none,
    spinData := none, gameLimit := some 1, userGameCounts := [("A", 1)] }

/-- A state with stored gameLimit 0 and a large count for member A. -/
def zeroLimitState : GameState :=
  { selectedGames := [], isSpinning := false, winner := none,
    spinData := none, gameLimit := some 0, userGameCounts := [("A", 99)] }

/-- A one-row session table holding a spin that should long have
completed (startTime 0, duration 3000 ms). -/
def stuckDb : List StoredSession :=
  [{ id := "123456", game_state := spinningState, expires_at := 86400000 }]

/-- Reading back a counter just written returns the written value. -/
theorem alGet_alSet_self {K : Type} [DecidableEq K]
    (m : List (K × Nat)) (k : K) (v : Nat) :
    alGet (alSet m k v) k = v := by
  induction m with
  | nil => simp [alGet, alSet]
  | cons p ps ih =>
    by_cases h : p.fst = k
    · simp [alSet, alGet, h]
    · simp [alSet, alGet, h, ih]

/-- Writing one counter leaves every other counter unchanged. -/
theorem alGet_alSet_ne {K : Type} [DecidableEq K]
    (m : List (K × Nat)) (k k2 : K) (v : Nat) (h : k2 ≠ k) :
    alGet (alSet m k v) k2 = alGet m k2 := by
  have hk : ¬(k = k2) := fun hh => h hh.symm
  induction m with
  | nil => simp [alGet, alSet, hk]
  | cons p ps ih =>
    by_cases hp : p.fst = k
    · have hp2 : ¬(p.fst = k2) := fun hh => h (hp.symm.trans hh).symm
      simp [alSet, alGet, hp, hk, hp2]
    · by_cases h2 : p.fst = k2
      · simp [alSet, alGet, hp, h2, h]
      · simp [alSet, alGet, hp, h2, ih]

/-- C1, counterexample: a StartSpin on a session whose selectedGames is
empty is not rejected with Empty — it sets isSpinning to true and
installs a non-null spinData, contradicting the claim that the state is
left unchanged. -/
theorem c1_empty_spin_not_rejected :
    (startSpin initialGameState 1000 3500 0 10).isSpinning = true ∧
    (startSpin initialGameState 1000 3500 0 10).spinData ≠ none := by
  decide

/-- C1, amended: a StartSpin on a session whose selectedGames is empty
proceeds rather than being rejected: it sets isSpinning to true, clears
the winner, and installs spinData with a null pre-selected winner and
zero base and final rotations. -/
theorem c1_amended (s : GameState) (now : Nat) (dur : ℚ) (idx extra : Nat)
    (hempty : s.selectedGames = []) (hns : s.isSpinning = false) :
    startSpin s now dur idx extra =
      { s with isSpinning := true, winner := none,
               spinData := some
                 { startTime := now, duration := dur,
                   finalRotation := 0, baseRotation := 0,
                   preCalculatedWinner := none } } := by
  simp [startSpin, hns, hempty, sortByName]

/-- C1, witness: the amended statement evaluated on the initial empty
state at time 5 with duration 3000. -/
theorem c1_amended_witness :
    startSpin initialGameState 5 3000 0 10 =
      { initialGameState with
          isSpinning := true, winner := none,
          spinData := some
            { startTime := 5, duration := 3000,
              finalRotation := 0, baseRotation := 0,
              preCalculatedWinner := none } } :=
  c1_amended initialGameState 5 3000 0 10 rfl rfl

/-- C2, counterexample: after StartSpin, ClearAll, and a later
StartSpin, the stale deferred completion of the first spin is not a
no-op — it fires on the new spin (the completion body checks only
isSpinning and spinData, never the spin identity) and changes the
state, contradicting the claim. -/
theorem c2_stale_completion_changes_state :
    completeSpin
        (startSpin (clearAllGames (startSpin dupState 0 3000 0 10)) 100 4000 0 10) ≠
      startSpin (clearAllGames (startSpin dupState 0 3000 0 10)) 100 4000 0 10 := by
  decide

/-- C2, amended: the deferred completion carries no spin identity; it
finalises whenever the current state has isSpinning true and a non-null
spinData, taking the winner from the current spinData. Consequently a
stale completion after a ClearAll alone is a no-op, but after a later
StartSpin it finalises the new spin early. -/
theorem c2_amended (s : GameState) :
    completeSpin (clearAllGames s) = clearAllGames s ∧
    ∀ sd : SpinData, s.spinData = some sd → s.isSpinning = true →
      completeSpin s =
        { s with isSpinning := false, winner := sd.preCalculatedWinner,
                 spinData := none } := by
  constructor
  · simp [completeSpin, clearAllGames]
  · intro sd hsd hsp
    simp [completeSpin, hsd, hsp]

/-- C2, witness: the amended statement evaluated on a concrete mid-spin
state. -/
theorem c2_amended_witness :
    completeSpin (clearAllGames spinningState) = clearAllGames spinningState ∧
    completeSpin spinningState =
      { spinningState with
          isSpinning := false, winner := some chessEntry,
          spinData := none } :=
  ⟨(c2_amended spinningState).1,
   (c2_amended spinningState).2 sampleSpin rfl rfl⟩

/-- C3: evaluation at the failing input. A stored session holds a spin
whose duration (3000 ms from time 0) has long elapsed at access time
1000000; the registry returns the row as is, the state served by the
game_action fetch is exactly the stored one, and it is still marked
spinning — no finalisation with the stored winner happens before
serving, so the spin stays stuck after a process restart. -/
theorem c3_stuck_spin_served_unchanged :
    getSession stuckDb "123456" 1000000 =
      some { id := "123456", game_state := spinningState,
             expires_at := 86400000 } ∧
    spinExpiredB 1000000 (fetchState none spinningState) = true ∧
    fetchState none spinningState = spinningState ∧
    (fetchState none spinningState).isSpinning = true := by
  decide

/-- C4: the rate limiter at the message-loop call site never rejects.
Because the key embeds the per-call Date.now() value, any sequence of
messages arriving at pairwise-distinct millisecond timestamps hits a
fresh counter each time, so every message is accepted no matter how
many arrive within the window — the claimed over-limit rejection never
happens for limit at least 1. -/
theorem c4_rate_limiter_never_rejects (addr : String) (limit : Nat)
    (ts : List Nat) (store : RateStore) (hlim : 1 ≤ limit)
    (hnd : ts.Nodup) (hfresh : ∀ t ∈ ts, alGet store (addr, t) = 0) :
    (handleMessages addr limit ts store).fst =
      List.replicate ts.length true := by
  revert hnd hfresh
  induction ts generalizing store with
  | nil => intro _ _; rfl
  | cons t ts ih =>
    intro hnd hfresh
    have h0 : alGet store (addr, t) = 0 := hfresh t (List.mem_cons_self t ts)
    have hok : (checkRateLimit store (addr, t) limit).1 = true := by
      simp only [checkRateLimit, h0, Nat.zero_add, decide_eq_true_eq]
      omega
    have hmem : t ∉ ts := (List.nodup_cons.mp hnd).1
    have hfresh2 : ∀ t2 ∈ ts,
        alGet (checkRateLimit store (addr, t) limit).2 (addr, t2) = 0 := by
      intro t2 ht2
      have hne : (addr, t2) ≠ (addr, t) := by
        intro he
        have ht : t2 = t := congrArg Prod.snd he
        exact hmem (ht ▸ ht2)
      simp only [checkRateLimit]
      rw [alGet_alSet_ne _ _ _ _ hne]
      exact hfresh t2 (List.mem_cons_of_mem t ht2)
    have hrest := ih (checkRateLimit store (addr, t) limit).2
      (List.nodup_cons.mp hnd).2 hfresh2
    show (checkRateLimit store (addr, t) limit).1 ::
        (handleMessages addr limit ts (checkRateLimit store (addr, t) limit).2).1 =
      true :: List.replicate ts.length true
    rw [hok, hrest]

/-- C4, witness: six messages from one source at timestamps 0..5 with
limit 2 are all accepted. -/
theorem c4_witness :
    (handleMessages "10.0.0.1" 2 [0, 1, 2, 3, 4, 5] []).fst =
      List.replicate 6 true :=
  c4_rate_limiter_never_rejects "10.0.0.1" 2 [0, 1, 2, 3, 4, 5] []
    (by decide) (by decide) (by decide)

/-- C5, counterexample: with the durable store already holding active
session 123456 and no local connections, the generator accepts 123456
on the first draw (it checks only the in-memory connections map), so
the returned id collides with a currently-active session id and the
handler answers with an error reply instead of retrying — refuting both
the freshness and the consult-durable-storage parts of the claim. -/
theorem c5_counterexample :
    generateSessionId [123456] [] = some "123456" ∧
    "123456" ∈ ["123456"] ∧
    createSessionHandler [123456] [] ["123456"] =
      (CreateReply.errorReply, ["123456"]) := by
  refine ⟨?_, ?_, ?_⟩ <;> decide

/-- C5, amended: CreateSession retries on collision only against the
in-memory map of sessions with live connections on this instance; the
id it accepts is never in that map, but durable storage is not
consulted before accepting — if the id already exists durably the
insert fails and a generic error reply is returned with no retry, and
only otherwise is the session created. -/
theorem c5_amended (draws : List Nat) (conns db : List String) (id : String)
    (h : generateSessionId draws conns = some id) :
    id ∉ conns ∧
    (id ∈ db →
      createSessionHandler draws conns db = (CreateReply.errorReply, db)) ∧
    (id ∉ db →
      createSessionHandler draws conns db =
        (CreateReply.sessionCreated id, id :: db)) := by
  refine ⟨?_, ?_, ?_⟩
  · induction draws with
    | nil => simp [generateSessionId] at h
    | cons d ds ih =>
      by_cases hd : toString d ∈ conns
      · exact ih (by simpa [generateSessionId, hd] using h)
      · have hid : toString d = id := by
          simpa [generateSessionId, hd] using h
        rw [← hid]
        exact hd
  · intro hdb
    simp [createSessionHandler, h, dbCreateSession, hdb]
  · intro hdb
    simp [createSessionHandler, h, dbCreateSession, hdb]

/-- C5, witness: the amended statement evaluated with one local
connection 111111 and durable store holding 123456: the draw 654321 is
accepted and the session is created. -/
theorem c5_amended_witness :
    "654321" ∉ (["111111"] : List String) ∧
    createSessionHandler [654321] ["111111"] ["123456"] =
      (CreateReply.sessionCreated "654321", ["654321", "123456"]) :=
  ⟨(c5_amended [654321] ["111111"] ["123456"] "654321" (by decide)).1,
   (c5_amended [654321] ["111111"] ["123456"] "654321" (by decide)).2.2
     (by decide)⟩

/-- C6, counterexample: adding a second entry named Chess to a state
that already holds one is skipped with no state change and reply none —
no error reply is sent, refuting the claim that the duplicate-name
rejection is surfaced to the requester. -/
theorem c6_counterexample :
    addGame dupState "B" chessInput = (dupState, none) := by
  decide

/-- C6, amended: an AddGame whose entry name is already present in
selectedGames causes no state change and no reply at all — the
duplicate rejection is silent. -/
theorem c6_amended (s : GameState) (uid : String) (g : GameEntry)
    (hdup : s.selectedGames.any (fun e => e.name == g.name) = true) :
    addGame s uid g = (s, none) := by
  simp [addGame, hdup]

/-- C6, witness: the amended statement evaluated on a concrete
duplicate submission. -/
theorem c6_amended_witness :
    addGame dupState "C"
        { name := "Chess", genre := "Strategy", platform := "Mobile",
          addedBy := none } =
      (dupState, none) :=
  c6_amended dupState "C"
    { name := "Chess", genre := "Strategy", platform := "Mobile",
      addedBy := none } (by decide)

/-- C7, counterexample: set_game_limit stores the new limit without
checking existing counts. Starting from a state where member A has
submitted 2 games and no limit is set, setting gameLimit to 1 yields a
state with gameLimit 1 in which member A's count is 2, violating the
claimed invariant count at most L after every mutation. -/
theorem c7_counterexample :
    (setGameLimit twoGamesState 1).gameLimit = some 1 ∧
    alGet (setGameLimit twoGamesState 1).userGameCounts "A" = 2 ∧
    ¬(alGet (setGameLimit twoGamesState 1).userGameCounts "A" ≤ 1) := by
  decide

/-- C7, amended: with gameLimit = L > 0, an AddGame by a member whose
count has reached L is rejected with an explicit error reply naming the
limit and no state change, and AddGame preserves the bound count at
most L for every member; the invariant can still be broken by
set_game_limit, which stores a new limit below existing counts
unchecked. -/
theorem c7_amended (s : GameState) (uid : String) (g : GameEntry) (l : Int)
    (hl : s.gameLimit = some l) (hpos : 0 < l) :
    (l ≤ (alGet s.userGameCounts uid : Int) →
      s.selectedGames.any (fun e => e.name == g.name) = false →
      addGame s uid g = (s, some (limitReply l))) ∧
    ((∀ u : String, (alGet s.userGameCounts u : Int) ≤ l) →
      ∀ u : String, (alGet (addGame s uid g).fst.userGameCounts u : Int) ≤ l) := by
  constructor
  · intro hge hdup
    have hcond : l ≠ 0 ∧ l ≤ (alGet s.userGameCounts uid : Int) :=
      ⟨by omega, hge⟩
    simp [addGame, hdup, hl, hcond]
  · intro hbound u
    by_cases hdup : s.selectedGames.any (fun e => e.name == g.name) = true
    · simp only [addGame, hdup, if_true]
      exact hbound u
    · rw [Bool.not_eq_true] at hdup
      by_cases hc : l ≤ (alGet s.userGameCounts uid : Int)
      · have hcond : l ≠ 0 ∧ l ≤ (alGet s.userGameCounts uid : Int) :=
          ⟨by omega, hc⟩
        simp [addGame, hdup, hl, hcond]
        exact hbound u
      · have hcond : ¬(l ≠ 0 ∧ l ≤ (alGet s.userGameCounts uid : Int)) :=
          fun hh => hc hh.2
        simp [addGame, hdup, hl, hcond]
        by_cases hu : u = uid
        · subst hu
          rw [alGet_alSet_self]
          omega
        · rw [alGet_alSet_ne _ _ _ _ hu]
          exact hbound u

/-- C7, witness: with gameLimit 1 and member A already at one game, a
fresh submission by A is rejected with the limit-naming error and the
bound holds for every member afterwards. -/
theorem c7_amended_witness :
    addGame limitState "A" goInput = (limitState, some (limitReply 1)) ∧
    ∀ u : String,
      (alGet (addGame limitState "A" goInput).fst.userGameCounts u : Int) ≤ 1 :=
  ⟨(c7_amended limitState "A" goInput 1 rfl (by decide)).1
      (by decide) (by decide),
   (c7_amended limitState "A" goInput 1 rfl (by decide)).2
      (by
        intro u
        by_cases h : ("A" : String) = u <;>
          simp [limitState, alGet, h])⟩

/-- C8: with the wheel angles written as rational coefficients of pi,
the computed baseRotation is exactly -pi/2 - winningIndex * (2 pi / n)
- (2 pi / n) / 2, and the midpoint of the winning sector,
winningIndex * anglePerSection + baseRotation + anglePerSection / 2,
lands exactly at the pointer angle -pi/2 — in particular within the
claimed tolerance of 1e-9. -/
theorem c8_theorem (n idx : Nat) (_h : 0 < n) :
    baseRotationCoeff n idx =
      -(1/2) - idx * (2 / (n : ℚ)) - (2 / (n : ℚ)) / 2 ∧
    sectorMidpointCoeff n idx = -(1/2) ∧
    |sectorMidpointCoeff n idx - (-(1/2))| ≤ 1 / 1000000000 := by
  have hm : sectorMidpointCoeff n idx = -(1/2) := by
    unfold sectorMidpointCoeff baseRotationCoeff anglePerSectionCoeff
    ring
  refine ⟨rfl, hm, ?_⟩
  rw [hm, sub_self, abs_zero]
  norm_num

/-- C8, witness: the midpoint identity evaluated at four games with
winning index 2. -/
theorem c8_witness :
    (0 : Nat) < 4 ∧ sectorMidpointCoeff 4 2 = -(1/2) :=
  ⟨by decide, (c8_theorem 4 2 (by decide)).2.1⟩

/-- C9: spin completion is idempotent — on any state, running the
deferred completion twice gives the same state as running it once: the
first run (when it fires at all) sets isSpinning to false and nulls
spinData, so the second run's guard fails and it changes nothing. -/
theorem c9_completion_idempotent (s : GameState) :
    completeSpin (completeSpin s) = completeSpin s := by
  by_cases hs : s.isSpinning
  · cases hsd : s.spinData with
    | none => simp [completeSpin, hs, hsd]
    | some sd => simp [completeSpin, hs, hsd]
  · simp [completeSpin, hs]

/-- C10: set_game_limit stores the supplied limit verbatim with no
validation, and a stored gameLimit of 0 disables enforcement: the limit
check requires gameLimit to be truthy (non-zero), so with gameLimit 0
an AddGame of a fresh name always succeeds regardless of the member's
current count. -/
theorem c10_theorem (s : GameState) (l : Int) (uid : String) (g : GameEntry)
    (hzero : s.gameLimit = some 0)
    (hdup : s.selectedGames.any (fun e => e.name == g.name) = false) :
    (setGameLimit s l).gameLimit = some l ∧
    addGame s uid g =
      ({ s with
          selectedGames := s.selectedGames ++ [{ g with addedBy := some uid }],
          userGameCounts :=
            alSet s.userGameCounts uid (alGet s.userGameCounts uid + 1) },
        none) := by
  refine ⟨rfl, ?_⟩
  simp [addGame, hdup, hzero]

/-- C10, witness: with stored gameLimit 0 and member A already counted
at 99, adding Go still succeeds and the count rises to 100. -/
theorem c10_witness :
    (setGameLimit zeroLimitState 5).gameLimit = some 5 ∧
    addGame zeroLimitState "A" goInput =
      ({ zeroLimitState with
          selectedGames := [{ goInput with addedBy := some "A" }],
          userGameCounts := [("A", 100)] }, none) := by
  have h := c10_theorem zeroLimitState 5 "A" goInput rfl (by decide)
  exact ⟨h.1, by rw [h.2]; rfl⟩

end GameChooser
